import Mathlib

/-!
Shallow embedding of `packages/desktop/src/controller.rs` (the
`DesktopController` of dioxus-desktop) and of the event branch of its
render-loop worker, together with proofs of the specified properties.

Modelling conventions:
  - `WindowId` is a natural number; the `HashMap<WindowId, WebView>` registry
    is an association list in registration order. `std::collections::HashMap`
    iteration order is unspecified (per-instance random hash state), so which
    entry `iter_mut().next()` yields is NOT derivable from the code:
    `try_load_ready_webviews_hashmap` keeps it abstract (a parameter giving
    the index of the entry the iterator yields first), and
    `try_load_ready_webviews` is its head-of-list instance, adequate for the
    properties that do not depend on which entry the iterator yields.
  - A `WebView` is observed through the ordered log of strings passed to its
    `evaluate_script` call; `evaluate_script` itself is an external collaborator
    and is modelled as always succeeding (appending to the log).
  - A Rust panic (an `unwrap` on `None`/`Err`) is modelled as `none` in an
    `Option`-valued result.
  - The `serde_json::from_value::<EventMessage>` and `decode_event` decoders
    live in `events.rs`, outside the embedded file; they are abstract function
    parameters of the loop-iteration model, since the properties quantify over
    their outcomes.
-/

namespace DioxusDesktop

abbrev WindowId := Nat

/-- A display-surface handle, observed as the ordered log of scripts handed to
`evaluate_script`. -/
abbrev WebView := List String

/-- The fields of `DesktopController`: the window registry, the shared
`pending_edits` mutation buffer, the quit-on-close policy flag, and the
readiness flag (`is_ready`, an `Arc<AtomicBool>` read with relaxed ordering). -/
structure DesktopController where
  webviews : List (WindowId × WebView)
  pending_edits : List String
  quit_app_on_close : Bool
  is_ready : Bool
  deriving DecidableEq, Repr

/-- The host event-loop control value (`wry::application::event_loop::ControlFlow`). -/
inductive ControlFlow where
  | Poll
  | Wait
  | Exit
  deriving DecidableEq, Repr

/-- The controller value produced by `DesktopController::new_on_tokio`: the
registry starts empty (`HashMap::new()`), `is_ready` starts `false`, and
`quit_app_on_close` starts `true`. The `pending_edits` buffer is shared with
the spawned worker (which appends to it concurrently), so its contents at
observation time are a parameter. -/
def new_on_tokio (pending_edits : List String) : DesktopController :=
  { pending_edits := pending_edits
    webviews := []
    is_ready := false
    quit_app_on_close := true }

/-- `DesktopController::close_window`: remove the entry for `window_id` from
the registry; if the registry is then empty and `quit_app_on_close` is set,
assign `ControlFlow::Exit` to the loop's control value. The third component
counts how many times the `ControlFlow::Exit` assignment ran in this call. -/
def close_window (c : DesktopController) (window_id : WindowId)
    (control_flow : ControlFlow) : DesktopController × ControlFlow × Nat :=
  let c := { c with webviews := c.webviews.filter (fun p => p.1 != window_id) }
  if c.webviews.isEmpty && c.quit_app_on_close then
    (c, ControlFlow.Exit, 1)
  else
    (c, control_flow, 0)

/-- The script the controller formats around each drained payload before
handing it to `evaluate_script`. -/
def handleEditsScript (edit : String) : String :=
  "window.interpreter.handleEdits(" ++ edit ++ ")"

/-- `DesktopController::try_load_ready_webviews`: when `is_ready` is true, swap
the `pending_edits` buffer with an empty vector under the lock, take one
webview of the registry with `iter_mut().next().unwrap()` — `none` models the
panic of that `unwrap` when the registry is empty — and hand each drained
payload, in order, to that webview's `evaluate_script`. When `is_ready` is
false the whole body is skipped. This version fixes the `HashMap` iterator to
yield the head of the list (the iteration order being unspecified in the
code); `try_load_ready_webviews_hashmap` below leaves the iterated entry
abstract. -/
def try_load_ready_webviews (c : DesktopController) : Option DesktopController :=
  if c.is_ready then
    let new_queue := c.pending_edits
    let c := { c with pending_edits := ([] : List String) }
    match c.webviews with
    | [] => none
    | (id, view) :: rest =>
        some { c with webviews := (id, view ++ new_queue.map handleEditsScript) :: rest }
  else
    some c

/-- Mutation through the iterator's mutable reference: append `scripts` to the
script log of the registry entry at position `k`, leaving every other entry
untouched (and the list unchanged when `k` is out of range). -/
def appendAt (scripts : List String) : Nat → List (WindowId × WebView) →
    List (WindowId × WebView)
  | _, [] => []
  | 0, p :: rest => (p.1, p.2 ++ scripts) :: rest
  | k + 1, p :: rest => p :: appendAt scripts k rest

/-- `DesktopController::try_load_ready_webviews` with the registry's iteration
order made explicit: `std::collections::HashMap` iteration order is
unspecified, so the entry `iter_mut().next()` yields is given by the parameter
`first`, mapping the registry to the index of the entry the iterator produces
first (`none` exactly when the registry is empty, making the `unwrap` panic —
modelled as `none`). All drained payloads are handed, in order, to that one
entry's `evaluate_script`. -/
def try_load_ready_webviews_hashmap
    (first : List (WindowId × WebView) → Option Nat) (c : DesktopController) :
    Option DesktopController :=
  if c.is_ready then
    let new_queue := c.pending_edits
    let c := { c with pending_edits := ([] : List String) }
    match first c.webviews with
    | none => none
    | some k =>
        some { c with webviews := appendAt (new_queue.map handleEditsScript) k c.webviews }
  else
    some c

/-- One admissible behavior of `HashMap` iteration: the iterator yields the
last-registered entry first (`none` exactly on the empty registry). Since the
iteration order is unspecified, this is a possible execution of
`iter_mut().next()`. -/
def lastIdx (l : List (WindowId × WebView)) : Option Nat :=
  if l.isEmpty then none else some (l.length - 1)

/-- The scheduling priorities of `dioxus_core::EventPriority`. -/
inductive EventPriority where
  | Immediate
  | High
  | Medium
  | Low
  deriving DecidableEq, Repr

/-- `dioxus_core::ElementId`. -/
structure ElementId where
  id : Nat
  deriving DecidableEq, Repr

/-- The fields of `events::EventMessage` read by the controller: the event-kind
name and the target element identifier; the kind-specific payload is opaque
(type parameter `P`). -/
structure EventMessage (P : Type) where
  event : String
  mounted_dom_id : Nat
  contents : P

/-- One `dom.handle_event(&name, evt, el_id, true, EventPriority::Medium)` call
as observed by the model: its arguments, in order. `E` is the decoded
domain-event type. -/
structure DispatchCall (E : Type) where
  name : String
  event : E
  element : ElementId
  bubbles : Bool
  priority : EventPriority

/-- The event branch of one render-loop iteration in `new_on_tokio`: parse the
inbound JSON value into an `EventMessage` (abstract decoder `from_value`,
standing for `serde_json::from_value`); on success, read the event name and
wrap the target identifier in `ElementId`, then run `decode_event`; on success
of both, make exactly one dispatch call with medium priority. Either failure
makes no dispatch call. The returned list is the sequence of dispatch calls
made to the model. -/
def handle_inbound_event {J P E : Type} (from_value : J → Option (EventMessage P))
    (decode_event : EventMessage P → Option E) (json_value : J) :
    List (DispatchCall E) :=
  match from_value json_value with
  | none => []
  | some value =>
      let name := value.event
      let el_id := ElementId.mk value.mounted_dom_id
      match decode_event value with
      | none => []
      | some evt => [⟨name, evt, el_id, true, EventPriority.Medium⟩]

/-- The startup block of `new_on_tokio` after the initial `dom.rebuild()`:
push the serialized template mutations and edits onto the shared queue, then
`proxy.send_event(UserWindowEvent::Update).unwrap()` — the send result is
unwrapped, so a failed send (`send_ok = false`) panics the worker (`none`). -/
def initial_build_step (queue : List String) (templates edits : String)
    (send_ok : Bool) : Option (List String) :=
  let queue := queue ++ [templates, edits]
  if send_ok then some queue else none

/-- The tail of each render-loop iteration in `new_on_tokio`: push the
serialized template mutations and edits onto the shared queue, then
`let _ = proxy.send_event(UserWindowEvent::Update)` — the send result is
discarded, so the step succeeds whether or not the send succeeded. -/
def loop_render_step (queue : List String) (templates edits : String)
    (_send_ok : Bool) : Option (List String) :=
  let queue := queue ++ [templates, edits]
  some queue

/-- Claim C1: with the Readiness Flag true and a display surface registered, a
drain delivers every buffered payload to the surface in exact append order
(each wrapped in the handleEdits script) and leaves the buffer empty; the swap
is all-or-nothing, so no partial drain is observable and no payload is
delivered twice. -/
theorem C1_drain_in_order_and_empties_buffer (c : DesktopController)
    (id : WindowId) (view : WebView) (rest : List (WindowId × WebView))
    (hready : c.is_ready = true) (hw : c.webviews = (id, view) :: rest) :
    try_load_ready_webviews c =
      some { c with
              pending_edits := []
              webviews := (id, view ++ c.pending_edits.map handleEditsScript) :: rest } := by
  unfold try_load_ready_webviews
  rw [hready]
  simp [hw]

theorem C1_drain_in_order_and_empties_buffer_witness :
    try_load_ready_webviews ⟨[(0, [])], ["a", "b"], true, true⟩ =
      some ⟨[(0, [handleEditsScript "a", handleEditsScript "b"])], [], true, true⟩ := by
  exact C1_drain_in_order_and_empties_buffer ⟨[(0, [])], ["a", "b"], true, true⟩ 0 [] [] rfl rfl

/-- Claim C2: when the Readiness Flag is false, `try_load_ready_webviews`
changes nothing: the buffer keeps its contents, no webview receives a payload,
and no panic occurs. -/
theorem C2_not_ready_is_noop (c : DesktopController) (h : c.is_ready = false) :
    try_load_ready_webviews c = some c := by
  unfold try_load_ready_webviews
  rw [h]
  simp

theorem C2_not_ready_is_noop_witness :
    try_load_ready_webviews ⟨[(0, [])], ["a"], true, false⟩ =
      some ⟨[(0, [])], ["a"], true, false⟩ :=
  C2_not_ready_is_noop ⟨[(0, [])], ["a"], true, false⟩ rfl

/-- Claim C3 (counterexample): with the Readiness Flag true, the buffer empty
and the window registry empty, `try_load_ready_webviews` panics on the
`unwrap` of `iter_mut().next()` (modelled by `none`), so the call is not a
no-op that succeeds without panic. -/
theorem C3_empty_registry_panics :
    try_load_ready_webviews ⟨[], [], true, true⟩ = none := rfl

/-- Claim C3 (amended): with the Readiness Flag true, the buffer empty and at
least one window registered, `try_load_ready_webviews` succeeds and changes no
observable state; with an empty registry the call panics instead. -/
theorem C3_ready_empty_buffer_noop (c : DesktopController)
    (id : WindowId) (view : WebView) (rest : List (WindowId × WebView))
    (hready : c.is_ready = true) (hq : c.pending_edits = [])
    (hw : c.webviews = (id, view) :: rest) :
    try_load_ready_webviews c = some c := by
  obtain ⟨w, q, qc, r⟩ := c
  simp only at hready hq hw
  subst hready hq hw
  simp [try_load_ready_webviews]

theorem C3_ready_empty_buffer_noop_witness :
    try_load_ready_webviews ⟨[(7, ["s"])], [], true, true⟩ =
      some ⟨[(7, ["s"])], [], true, true⟩ :=
  C3_ready_empty_buffer_noop ⟨[(7, ["s"])], [], true, true⟩ 7 ["s"] [] rfl rfl rfl

/-- Claim C4: an inbound envelope whose decode fails — either the envelope
itself is unparseable (`from_value` yields nothing) or the event kind is
unrecognized (`decode_event` yields nothing) — causes no dispatch call to the
model, and the branch completes without panic. -/
theorem C4_decode_failure_no_dispatch {J P E : Type}
    (from_value : J → Option (EventMessage P))
    (decode_event : EventMessage P → Option E) (json_value : J)
    (h : from_value json_value = none ∨
         ∃ v, from_value json_value = some v ∧ decode_event v = none) :
    handle_inbound_event from_value decode_event json_value = [] := by
  unfold handle_inbound_event
  rcases h with h | ⟨v, hv, hd⟩
  · rw [h]
  · rw [hv]
    simp [hd]

theorem C4_decode_failure_no_dispatch_witness :
    handle_inbound_event (fun _ : Unit => (none : Option (EventMessage Unit)))
      (fun _ => (none : Option Unit)) () = [] :=
  C4_decode_failure_no_dispatch _ _ () (Or.inl rfl)

/-- Claim C5: an inbound envelope that parses and decodes successfully produces
exactly one dispatch call to the model, carrying the envelope's event name, the
decoded event, the envelope's target identifier unchanged (wrapped in
`ElementId`), bubbling enabled, and `EventPriority.Medium`. -/
theorem C5_successful_decode_single_dispatch {J P E : Type}
    (from_value : J → Option (EventMessage P))
    (decode_event : EventMessage P → Option E) (json_value : J)
    (value : EventMessage P) (evt : E)
    (h1 : from_value json_value = some value) (h2 : decode_event value = some evt) :
    handle_inbound_event from_value decode_event json_value =
      [⟨value.event, evt, ElementId.mk value.mounted_dom_id, true,
        EventPriority.Medium⟩] := by
  unfold handle_inbound_event
  rw [h1]
  simp [h2]

theorem C5_successful_decode_single_dispatch_witness :
    handle_inbound_event
      (fun _ : Unit => some (⟨"click", 5, ()⟩ : EventMessage Unit))
      (fun _ => some ()) () =
      [⟨"click", (), ElementId.mk 5, true, EventPriority.Medium⟩] :=
  C5_successful_decode_single_dispatch _ _ () ⟨"click", 5, ()⟩ () rfl rfl

/-- Claim C6: with quit-on-close enabled, `close_window` performs exactly one
`ControlFlow::Exit` assignment when the removal empties the registry (closing
the last registered window), and none when at least one other window remains
registered (the control value is left untouched). -/
theorem C6_quit_on_last_close (c : DesktopController) (id : WindowId)
    (cf : ControlFlow) (hq : c.quit_app_on_close = true) :
    ((c.webviews.filter (fun p => p.1 != id)).isEmpty = true →
      (close_window c id cf).2.2 = 1 ∧
      (close_window c id cf).2.1 = ControlFlow.Exit) ∧
    ((c.webviews.filter (fun p => p.1 != id)).isEmpty = false →
      (close_window c id cf).2.2 = 0 ∧
      (close_window c id cf).2.1 = cf) := by
  constructor
  · intro he
    simp [close_window, he, hq]
  · intro he
    simp [close_window, he]

theorem C6_quit_on_last_close_witness :
    (close_window ⟨[(0, [])], [], true, false⟩ 0 ControlFlow.Wait).2.1 =
      ControlFlow.Exit ∧
    (close_window ⟨[(0, []), (1, [])], [], true, false⟩ 0 ControlFlow.Wait).2.2 = 0 :=
  ⟨((C6_quit_on_last_close ⟨[(0, [])], [], true, false⟩ 0
      ControlFlow.Wait rfl).1 (by decide)).2,
   ((C6_quit_on_last_close ⟨[(0, []), (1, [])], [], true, false⟩ 0
      ControlFlow.Wait rfl).2 (by decide)).1⟩

theorem appendAt_length (s : List String) (k : Nat)
    (l : List (WindowId × WebView)) : (appendAt s k l).length = l.length := by
  induction l generalizing k with
  | nil => cases k <;> rfl
  | cons p rest ih =>
    cases k with
    | zero => rfl
    | succ k => simp [appendAt, ih]

theorem appendAt_getElem?_ne (s : List String) (k i : Nat)
    (l : List (WindowId × WebView)) (h : i ≠ k) :
    (appendAt s k l)[i]? = l[i]? := by
  induction l generalizing k i with
  | nil => cases k <;> rfl
  | cons p rest ih =>
    cases k with
    | zero =>
      cases i with
      | zero => exact absurd rfl h
      | succ i => simp [appendAt]
    | succ k =>
      cases i with
      | zero => simp [appendAt]
      | succ i =>
        simp only [appendAt, List.getElem?_cons_succ]
        exact ih k i (by omega)

theorem appendAt_getElem?_eq (s : List String) (k : Nat)
    (l : List (WindowId × WebView)) :
    (appendAt s k l)[k]? = (l[k]?).map (fun p => (p.1, p.2 ++ s)) := by
  induction l generalizing k with
  | nil => cases k <;> rfl
  | cons p rest ih =>
    cases k with
    | zero => simp [appendAt]
    | succ k =>
      simp only [appendAt, List.getElem?_cons_succ]
      exact ih k

/-- The head-of-list drain used by the other claims is the instance of the
iteration-order-explicit drain in which the iterator happens to yield the
first-registered entry. -/
theorem try_load_ready_webviews_eq_hashmap_head (c : DesktopController) :
    try_load_ready_webviews c =
      try_load_ready_webviews_hashmap
        (fun l => match l with | [] => none | _ :: _ => some 0) c := by
  obtain ⟨w, q, qc, r⟩ := c
  cases r
  · rfl
  · cases w with
    | nil => rfl
    | cons p rest => cases p; rfl

/-- Claim C7 (counterexample): `std::collections::HashMap` iteration order is
unspecified, so the iterator yielding the last-registered entry first is an
admissible execution; under it a drain on a two-window registry hands the
payload to the second-registered handle and the first-registered handle
receives nothing — the code does not guarantee delivery to the
first-registered handle. -/
theorem C7_first_registered_not_guaranteed :
    lastIdx [(0, ([] : WebView)), (1, ["old"])] = some 1 ∧
    (try_load_ready_webviews_hashmap lastIdx
        ⟨[(0, []), (1, ["old"])], ["a"], true, true⟩).map
        DesktopController.webviews =
      some [(0, []), (1, ["old", handleEditsScript "a"])] :=
  ⟨rfl, rfl⟩

/-- Claim C7 (amended): whichever registry entry the `HashMap` iterator yields
first — the iteration order is unspecified, so it need not be the
first-registered one — a drain hands every buffered payload to exactly that
one display-surface handle, whose script log grows by exactly the drained
payloads in order, while every other registered handle's log is unchanged. -/
theorem C7_exactly_one_handle_receives
    (first : List (WindowId × WebView) → Option Nat) (c : DesktopController)
    (k : Nat) (hready : c.is_ready = true) (hk : first c.webviews = some k) :
    ∃ c', try_load_ready_webviews_hashmap first c = some c' ∧
      c'.pending_edits = [] ∧
      c'.webviews.length = c.webviews.length ∧
      (∀ i, i ≠ k → c'.webviews[i]? = c.webviews[i]?) ∧
      c'.webviews[k]? = (c.webviews[k]?).map
        (fun p => (p.1, p.2 ++ c.pending_edits.map handleEditsScript)) := by
  refine ⟨{ c with
              pending_edits := []
              webviews := appendAt (c.pending_edits.map handleEditsScript) k c.webviews },
          ?_, rfl, ?_, ?_, ?_⟩
  · unfold try_load_ready_webviews_hashmap
    rw [hready]
    simp [hk]
  · exact appendAt_length _ _ _
  · intro i hi
    exact appendAt_getElem?_ne _ _ _ _ hi
  · exact appendAt_getElem?_eq _ _ _

theorem C7_exactly_one_handle_receives_witness :
    ∃ c', try_load_ready_webviews_hashmap (fun _ => some 1)
        ⟨[(0, []), (1, ["old"])], ["a"], true, true⟩ = some c' ∧
      c'.pending_edits = [] ∧
      c'.webviews.length = 2 ∧
      (∀ i, i ≠ 1 → c'.webviews[i]? =
        ([(0, ([] : WebView)), (1, ["old"])] : List (WindowId × WebView))[i]?) ∧
      c'.webviews[1]? =
        (([(0, ([] : WebView)), (1, ["old"])] : List (WindowId × WebView))[1]?).map
          (fun p => (p.1, p.2 ++ ["a"].map handleEditsScript)) := by
  exact C7_exactly_one_handle_receives (fun _ => some 1)
    ⟨[(0, []), (1, ["old"])], ["a"], true, true⟩ 1 rfl rfl

/-- Claim C8 (counterexample): the startup notification in `new_on_tokio` is
sent with `.unwrap()`, so a send failure there panics the worker (`none`)
instead of being recovered locally — the claim fails for the startup send. -/
theorem C8_startup_send_failure_panics :
    initial_build_step [] "t" "e" false = none := rfl

/-- Claim C8 (amended): the per-iteration notification send discards its
result, so the worker continues identically whether the send succeeded or
failed; the startup notification is unwrapped, so a send failure there panics
the worker. -/
theorem C8_loop_send_failure_ignored (queue : List String)
    (templates edits : String) :
    (∀ send_ok : Bool,
      loop_render_step queue templates edits send_ok =
        some (queue ++ [templates, edits])) ∧
    initial_build_step queue templates edits false = none :=
  ⟨fun _ => rfl, rfl⟩

/-- Claim C9: `new_on_tokio` always returns a controller whose window registry
is empty, whose readiness flag is `false`, and whose quit-on-close flag is
`true`. -/
theorem C9_initial_controller_state (pending : List String) :
    (new_on_tokio pending).webviews = [] ∧
    (new_on_tokio pending).is_ready = false ∧
    (new_on_tokio pending).quit_app_on_close = true :=
  ⟨rfl, rfl, rfl⟩

/-- Claim C10: `close_window` decides termination solely from the registry's
post-removal emptiness: called with any identifier while the registry is empty
and quit-on-close is enabled, it still performs the single
`ControlFlow::Exit` assignment and removes nothing. -/
theorem C10_close_on_empty_registry_exits (c : DesktopController)
    (id : WindowId) (cf : ControlFlow) (hw : c.webviews = [])
    (hq : c.quit_app_on_close = true) :
    (close_window c id cf).2.1 = ControlFlow.Exit ∧
    (close_window c id cf).2.2 = 1 ∧
    (close_window c id cf).1.webviews = [] := by
  simp [close_window, hw, hq]

theorem C10_close_on_empty_registry_exits_witness :
    (close_window ⟨[], ["a"], true, true⟩ 42 ControlFlow.Poll).2.1 =
      ControlFlow.Exit ∧
    (close_window ⟨[], ["a"], true, true⟩ 42 ControlFlow.Poll).2.2 = 1 ∧
    (close_window ⟨[], ["a"], true, true⟩ 42 ControlFlow.Poll).1.webviews = [] :=
  C10_close_on_empty_registry_exits ⟨[], ["a"], true, true⟩ 42 ControlFlow.Poll rfl rfl

end DioxusDesktop
